import Mathlib

/-!
Shallow embedding of the wsclip client core (apps/client/src/wsclip):
the wire-message codec (models/messages.py), the exponential-backoff
reconnection strategy (core/connection.py), the clipboard gate
(services/clipboard.py), and the clipboard send path of the WebSocket
service (services/websocket.py).  Python floats used for delays are
modelled as rationals (the delay arithmetic is exact doubling and min,
so the structure is unchanged); raised exceptions are modelled as
`Except.error` or as explicit outcome constructors; `None` and Python
truthiness are modelled explicitly.
-/

/-- A scalar JSON value as it appears in a decoded wire payload
(`json.loads` output restricted to the scalar shapes the codec touches). -/
inductive JValue
  | str (s : String)
  | bool (b : Bool)
  | num (n : Int)
  | null
deriving DecidableEq

/-- A decoded JSON object: an association list from keys to values.  Keys are
unique in payloads built by `message_to_dict`; lookup takes the first match,
as a Python dict would. -/
abbrev JDict := List (String × JValue)

/-- Python `data.get(key)`: `none` when the key is absent. -/
def jGet : JDict → String → Option JValue
  | [], _ => none
  | (k, v) :: rest, key => if k = key then some v else jGet rest key

/-- Python `data.get(key, default)`. -/
def jGetD (d : JDict) (key : String) (dflt : JValue) : JValue :=
  (jGet d key).getD dflt

/-- Python `str(v)` on a scalar value. -/
def pyStrOf : JValue → String
  | .str s => s
  | .bool b => if b then "True" else "False"
  | .num n => toString n
  | .null => "None"

/-- Python truthiness `bool(v)` on a scalar value. -/
def pyTruthy : JValue → Bool
  | .str s => !(s == "")
  | .bool b => b
  | .num n => !(n == 0)
  | .null => false

/-- Python `v == "lit"` comparing a scalar value against a string literal
(`None`, booleans and numbers never equal a string). -/
def jvEqStr : JValue → String → Bool
  | .str s, t => s == t
  | _, _ => false

/-- Python `data.get(key) == "lit"`: an absent key yields `None`, which never
equals a string. -/
def jvOptEqStr : Option JValue → String → Bool
  | some v, t => jvEqStr v t
  | none, _ => false

/-- models/messages.py `ClipboardSyncMode`. -/
inductive ClipboardSyncMode
  | auto
  | manual
deriving DecidableEq

/-- models/messages.py `ErrorCode`. -/
inductive ErrorCode
  | TOKEN_INVALID
  | PEER_LIMIT
  | ALREADY_CONNECTED
  | INTERNAL_ERROR
deriving DecidableEq

/-- The two tags a `PeerEventMessage` may carry. -/
inductive PeerEventType
  | peer_connected
  | peer_disconnected
deriving DecidableEq

/-- The tagged union of wire messages, mirroring the dataclasses of
models/messages.py.  The `timestamp` is carried as the string it is
serialized to; optional strings mirror `str | None` fields. -/
inductive WireMessage
  | auth (token peer_id timestamp : String)
  | auth_response (success : Bool) (session_id paired_peer error : Option String)
      (timestamp : String)
  | text_message (from_peer content message_id timestamp : String)
  | clipboard_text (from_peer content message_id : String)
      (source : ClipboardSyncMode) (timestamp : String)
  | peer_event (ptype : PeerEventType) (peer_id timestamp : String)
  | heartbeat (peer_id timestamp : String)
  | error (code : ErrorCode) (message timestamp : String)
deriving DecidableEq

/-- Serialization of an optional string field by `asdict`: `None` becomes
JSON null. -/
def jOptStr : Option String → JValue
  | some s => .str s
  | none => .null

/-- The `value` of a `ClipboardSyncMode` member. -/
def syncModeStr : ClipboardSyncMode → String
  | .auto => "auto"
  | .manual => "manual"

/-- The `value` of an `ErrorCode` member. -/
def errorCodeStr : ErrorCode → String
  | .TOKEN_INVALID => "TOKEN_INVALID"
  | .PEER_LIMIT => "PEER_LIMIT"
  | .ALREADY_CONNECTED => "ALREADY_CONNECTED"
  | .INTERNAL_ERROR => "INTERNAL_ERROR"

/-- The `value` of a peer-event message type. -/
def peerEventStr : PeerEventType → String
  | .peer_connected => "peer_connected"
  | .peer_disconnected => "peer_disconnected"

/-- models/messages.py `message_to_dict`: dataclass `asdict` output, with
`from_peer` renamed to the wire key `from`.  Enum members serialize to their
string values; `str | None` fields serialize to a string or null. -/
def message_to_dict : WireMessage → JDict
  | .auth token peer_id timestamp =>
      [("type", .str "auth"), ("timestamp", .str timestamp),
       ("token", .str token), ("peer_id", .str peer_id)]
  | .auth_response success session_id paired_peer error timestamp =>
      [("type", .str "auth_response"), ("timestamp", .str timestamp),
       ("success", .bool success), ("session_id", jOptStr session_id),
       ("paired_peer", jOptStr paired_peer), ("error", jOptStr error)]
  | .text_message from_peer content message_id timestamp =>
      [("type", .str "text_message"), ("timestamp", .str timestamp),
       ("content", .str content), ("message_id", .str message_id),
       ("from", .str from_peer)]
  | .clipboard_text from_peer content message_id source timestamp =>
      [("type", .str "clipboard_text"), ("timestamp", .str timestamp),
       ("content", .str content), ("message_id", .str message_id),
       ("source", .str (syncModeStr source)), ("from", .str from_peer)]
  | .peer_event ptype peer_id timestamp =>
      [("type", .str (peerEventStr ptype)), ("timestamp", .str timestamp),
       ("peer_id", .str peer_id)]
  | .heartbeat peer_id timestamp =>
      [("type", .str "heartbeat"), ("timestamp", .str timestamp),
       ("peer_id", .str peer_id)]
  | .error code message timestamp =>
      [("type", .str "error"), ("timestamp", .str timestamp),
       ("code", .str (errorCodeStr code)), ("message", .str message)]

/-- Decoding of an optional string field:
`str(data[key]) if data.get(key) else None` (a falsy present value — null,
empty string, False, 0 — also yields `None`). -/
def optStrField (d : JDict) (key : String) : Option String :=
  match jGet d key with
  | some v => if pyTruthy v then some (pyStrOf v) else none
  | none => none

/-- models/messages.py `dict_to_message`: the elif chain over the type tag.
The `ValueError` raised for an unknown or missing tag is modelled as
`Except.error`. -/
def dict_to_message (data : JDict) : Except String WireMessage :=
  if jvOptEqStr (jGet data "type") "auth" then
    .ok (.auth (pyStrOf (jGetD data "token" (.str "")))
          (pyStrOf (jGetD data "peer_id" (.str "")))
          (pyStrOf (jGetD data "timestamp" (.str ""))))
  else if jvOptEqStr (jGet data "type") "auth_response" then
    .ok (.auth_response (pyTruthy (jGetD data "success" (.bool false)))
          (optStrField data "session_id") (optStrField data "paired_peer")
          (optStrField data "error")
          (pyStrOf (jGetD data "timestamp" (.str ""))))
  else if jvOptEqStr (jGet data "type") "text_message" then
    .ok (.text_message (pyStrOf (jGetD data "from" (.str "")))
          (pyStrOf (jGetD data "content" (.str "")))
          (pyStrOf (jGetD data "message_id" (.str "")))
          (pyStrOf (jGetD data "timestamp" (.str ""))))
  else if jvOptEqStr (jGet data "type") "clipboard_text" then
    .ok (.clipboard_text (pyStrOf (jGetD data "from" (.str "")))
          (pyStrOf (jGetD data "content" (.str "")))
          (pyStrOf (jGetD data "message_id" (.str "")))
          (if jvEqStr (jGetD data "source" (.str "manual")) "manual"
            then ClipboardSyncMode.manual else ClipboardSyncMode.auto)
          (pyStrOf (jGetD data "timestamp" (.str ""))))
  else if jvOptEqStr (jGet data "type") "peer_connected"
      || jvOptEqStr (jGet data "type") "peer_disconnected" then
    .ok (.peer_event
          (if jvOptEqStr (jGet data "type") "peer_connected"
            then PeerEventType.peer_connected else PeerEventType.peer_disconnected)
          (pyStrOf (jGetD data "peer_id" (.str "")))
          (pyStrOf (jGetD data "timestamp" (.str ""))))
  else if jvOptEqStr (jGet data "type") "heartbeat" then
    .ok (.heartbeat (pyStrOf (jGetD data "peer_id" (.str "")))
          (pyStrOf (jGetD data "timestamp" (.str ""))))
  else if jvOptEqStr (jGet data "type") "error" then
    .ok (.error
          (if jvEqStr (jGetD data "code" (.str "INTERNAL_ERROR")) "TOKEN_INVALID"
            then ErrorCode.TOKEN_INVALID
           else if jvEqStr (jGetD data "code" (.str "INTERNAL_ERROR")) "PEER_LIMIT"
            then ErrorCode.PEER_LIMIT
           else if jvEqStr (jGetD data "code" (.str "INTERNAL_ERROR")) "ALREADY_CONNECTED"
            then ErrorCode.ALREADY_CONNECTED
           else ErrorCode.INTERNAL_ERROR)
          (pyStrOf (jGetD data "message" (.str "")))
          (pyStrOf (jGetD data "timestamp" (.str ""))))
  else
    .error "Unknown message type"

/-- The eight known wire type tags, in the order `dict_to_message` tests them. -/
def known_message_types : List String :=
  ["auth", "auth_response", "text_message", "clipboard_text",
   "peer_connected", "peer_disconnected", "heartbeat", "error"]

/-- The fields of `dict_to_message`'s round trip with Python-truthiness
pitfalls: an `auth_response` optional string field that is present but empty
decodes back to absent.  The round-trip law holds away from those. -/
def no_empty_optionals : WireMessage → Prop
  | .auth_response _ session_id paired_peer error _ =>
      session_id ≠ some "" ∧ paired_peer ≠ some "" ∧ error ≠ some ""
  | _ => True

/-- core/connection.py `ReconnectionStrategy`: configuration plus the mutable
backoff state (`_attempt_count`, `_current_delay`). -/
structure ReconnectionStrategy where
  initial_delay : ℚ
  max_delay : ℚ
  max_attempts : Nat
  attempt_count : Nat
  current_delay : ℚ
deriving DecidableEq

/-- `ReconnectionStrategy.__init__`: attempt count 0, current delay the
initial delay. -/
def ReconnectionStrategy.init (initial_delay max_delay : ℚ) (max_attempts : Nat) :
    ReconnectionStrategy :=
  ⟨initial_delay, max_delay, max_attempts, 0, initial_delay⟩

/-- `ReconnectionStrategy.reset`. -/
def ReconnectionStrategy.reset (s : ReconnectionStrategy) : ReconnectionStrategy :=
  { s with attempt_count := 0, current_delay := s.initial_delay }

/-- `ReconnectionStrategy.get_next_delay`: returns the delay and the updated
state; `-1` is the exhausted sentinel (returned with the state unchanged). -/
def ReconnectionStrategy.get_next_delay (s : ReconnectionStrategy) :
    ℚ × ReconnectionStrategy :=
  if s.max_attempts ≤ s.attempt_count then (-1, s)
  else (s.current_delay,
        { s with current_delay := min (s.current_delay * 2) s.max_delay,
                 attempt_count := s.attempt_count + 1 })

/-- The strategy state after `n` successive `get_next_delay` calls. -/
def run_delays (s : ReconnectionStrategy) : Nat → ReconnectionStrategy
  | 0 => s
  | n + 1 => (run_delays s n).get_next_delay.2

/-- The value returned by the `get_next_delay` call made after `n` earlier
calls (so `nth_delay s 0` is the first call's return value). -/
def nth_delay (s : ReconnectionStrategy) (n : Nat) : ℚ :=
  (run_delays s n).get_next_delay.1

/-- The outcome of one `connect_fn()` invocation inside `connect_with_retry`:
it returned True, returned False, or raised an exception. -/
inductive AttemptResult
  | success
  | failure
  | raised (e : String)
deriving DecidableEq

/-- The while loop of `ReconnectionStrategy.connect_with_retry`.  `f k` is
the outcome of the invocation with zero-based index `k`; the loop is entered
at index `n`.  Returns (result, total number of invocations made, the delays
slept between attempts, in order).  A raised exception falls into the same
branch as a returned False (the bare `except Exception` of the source). -/
def connect_with_retry_go (f : Nat → AttemptResult) (n : Nat)
    (s : ReconnectionStrategy) : Bool × Nat × List ℚ :=
  match f n with
  | .success => (true, n + 1, [])
  | _ =>
    if s.get_next_delay.1 < 0 then (false, n + 1, [])
    else
      let rest := connect_with_retry_go f (n + 1) s.get_next_delay.2
      (rest.1, rest.2.1, s.get_next_delay.1 :: rest.2.2)
termination_by s.max_attempts - s.attempt_count
decreasing_by
  rename_i h
  simp only [ReconnectionStrategy.get_next_delay] at h ⊢
  by_cases hc : s.max_attempts ≤ s.attempt_count
  · rw [if_pos hc] at h
    norm_num at h
  · rw [if_neg hc] at h ⊢
    simp only [Prod.snd]
    omega

/-- `ReconnectionStrategy.connect_with_retry`: reset, then the retry loop. -/
def ReconnectionStrategy.connect_with_retry (s : ReconnectionStrategy)
    (f : Nat → AttemptResult) : Bool × Nat × List ℚ :=
  connect_with_retry_go f 0 s.reset

/-- Maps a raised attempt outcome to a returned-failure outcome and leaves
the others alone. -/
def normalize_attempt : AttemptResult → AttemptResult
  | .raised _ => .failure
  | r => r

/-- services/clipboard.py `ClipboardService`: the gate state (`max_size_bytes`,
`_last_content`, `_last_received`). -/
structure ClipboardService where
  max_size_bytes : Nat
  last_content : Option String
  last_received : Option String
deriving DecidableEq

/-- Python truthiness of an `Optional[str]`: falsy when `None` or empty. -/
def truthyStrOpt : Option String → Bool
  | none => false
  | some s => !(s == "")

/-- `ClipboardService.set`: write text to the system clipboard, recording it
as the last received value on success.  `write_ok` models whether the
delegated `pyperclip.copy` call succeeded (False: it raised, state kept). -/
def ClipboardService.set (svc : ClipboardService) (text : String)
    (write_ok : Bool) : Bool × ClipboardService :=
  if write_ok then (true, { svc with last_received := some text })
  else (false, svc)

/-- `ClipboardService.should_ignore_change`: echo check first (one-shot: the
marker is cleared when it fires, and Python truthiness means an empty-string
marker never fires), then the persistent size check, then equality with the
last observed content. -/
def ClipboardService.should_ignore_change (svc : ClipboardService)
    (content : String) : Bool × ClipboardService :=
  if truthyStrOpt svc.last_received && (svc.last_received == some content) then
    (true, { svc with last_received := none })
  else if svc.max_size_bytes < content.utf8ByteSize then
    (true, svc)
  else
    (svc.last_content == some content, svc)

/-- One iteration body of `ClipboardService._monitor_loop` for a successfully
read clipboard value: the change is propagated (result True) iff the content
is truthy and the gate does not ignore it, and on propagation the loop stores
the content as `_last_content`. -/
def ClipboardService.monitor_observe (svc : ClipboardService)
    (current : String) : Bool × ClipboardService :=
  if current == "" then (false, svc)
  else
    let r := svc.should_ignore_change current
    if r.1 then (false, r.2)
    else (true, { r.2 with last_content := some current })

/-- services/websocket.py `WebSocketService`: the fields `send_clipboard`
reads.  `websocket` tells whether the transport handle is non-None. -/
structure WebSocketService where
  peer_id : String
  authenticated : Bool
  websocket : Bool
deriving DecidableEq

/-- config/settings.py `Settings.MAX_MESSAGE_SIZE` (1 MB). -/
def Settings.MAX_MESSAGE_SIZE : Nat := 1048576

/-- `WebSocketService._send_message`: raises RuntimeError when there is no
transport handle, otherwise writes exactly the given frame. -/
def WebSocketService.send_message_frames (st : WebSocketService)
    (m : WireMessage) : Except String (List WireMessage) :=
  if st.websocket then .ok [m] else .error "WebSocket not connected"

/-- `WebSocketService.send_clipboard`: silently returns (logging only) when
not authenticated or when the UTF-8 size exceeds the limit; otherwise wraps
the content in a `ClipboardTextMessage` from this peer and sends it.
`message_id` and `timestamp` stand for the freshly generated
`uuid.uuid4()` string and construction-time timestamp. -/
def WebSocketService.send_clipboard (st : WebSocketService) (content : String)
    (source : ClipboardSyncMode) (message_id timestamp : String) :
    Except String (List WireMessage) :=
  if !st.authenticated then .ok []
  else if Settings.MAX_MESSAGE_SIZE < content.utf8ByteSize then .ok []
  else st.send_message_frames
        (.clipboard_text st.peer_id content message_id source timestamp)

theorem should_ignore_change_false (svc : ClipboardService) (c : String)
    (h : (svc.should_ignore_change c).1 = false) :
    (svc.should_ignore_change c).2 = svc ∧
    (truthyStrOpt svc.last_received && (svc.last_received == some c)) = false ∧
    ¬ svc.max_size_bytes < c.utf8ByteSize ∧
    (svc.last_content == some c) = false := by
  unfold ClipboardService.should_ignore_change at h ⊢
  cases hb : truthyStrOpt svc.last_received && (svc.last_received == some c) with
  | true => simp [hb] at h
  | false =>
    by_cases h2 : svc.max_size_bytes < c.utf8ByteSize
    · simp [hb, h2] at h
    · simp [hb, h2] at h ⊢
      exact h

theorem should_ignore_change_true_of_size (svc : ClipboardService) (c : String)
    (h : svc.max_size_bytes < c.utf8ByteSize) :
    (svc.should_ignore_change c).1 = true := by
  unfold ClipboardService.should_ignore_change
  cases hb : truthyStrOpt svc.last_received && (svc.last_received == some c) with
  | true => simp [hb]
  | false => simp [hb, h]

theorem should_ignore_change_max_size (svc : ClipboardService) (c : String) :
    (svc.should_ignore_change c).2.max_size_bytes = svc.max_size_bytes := by
  unfold ClipboardService.should_ignore_change
  cases hb : truthyStrOpt svc.last_received && (svc.last_received == some c) with
  | true => simp [hb]
  | false =>
    by_cases h2 : svc.max_size_bytes < c.utf8ByteSize
    · simp [hb, h2]
    · simp [hb, h2]

/-- C4 (amended): for a non-empty content X within the size limit and distinct
from the last-observed baseline, after a successful applyRemote(X) the next
shouldIgnore(X) returns true and clears the remembered last-applied value,
and a second immediate shouldIgnore(X) returns false. -/
theorem echo_one_shot (svc : ClipboardService) (x : String) (hx : x ≠ "")
    (hsize : x.utf8ByteSize ≤ svc.max_size_bytes)
    (hbase : svc.last_content ≠ some x) :
    ((ClipboardService.set svc x true).2.should_ignore_change x).1 = true ∧
    ((ClipboardService.set svc x true).2.should_ignore_change x).2.last_received = none ∧
    (((ClipboardService.set svc x true).2.should_ignore_change x).2.should_ignore_change x).1
      = false := by
  have hxb : (x == "") = false := beq_eq_false_iff_ne.mpr hx
  have hbb : (svc.last_content == some x) = false := beq_eq_false_iff_ne.mpr hbase
  have hns : ¬ svc.max_size_bytes < x.utf8ByteSize := not_lt.mpr hsize
  simp [ClipboardService.set, ClipboardService.should_ignore_change, truthyStrOpt,
    hxb, hbb, hns]

/-- C4 (counterexample): for the empty string, applyRemote succeeds but the
next shouldIgnore returns false, because Python truthiness skips the echo
branch for an empty remembered value. -/
theorem echo_one_shot_cex :
    (ClipboardService.set ⟨100, none, none⟩ "" true).1 = true ∧
    ((ClipboardService.set ⟨100, none, none⟩ "" true).2.should_ignore_change "").1 = false := by
  decide

/-- C4 witness at a concrete gate state and content. -/
theorem echo_one_shot_witness :
    ((ClipboardService.set ⟨100, none, none⟩ "X" true).2.should_ignore_change "X").1 = true ∧
    ((ClipboardService.set ⟨100, none, none⟩ "X" true).2.should_ignore_change "X").2.last_received
      = none ∧
    (((ClipboardService.set ⟨100, none, none⟩ "X" true).2.should_ignore_change
        "X").2.should_ignore_change "X").1 = false :=
  echo_one_shot ⟨100, none, none⟩ "X" (by decide) (by decide) (by decide)

/-- C5: when the monitor loop propagates a change (the gate returned false),
the content becomes the new last-observed baseline and a second
shouldIgnore call on the same content returns true. -/
theorem unchanged_content_suppressed (svc : ClipboardService) (c : String)
    (h : (svc.monitor_observe c).1 = true) :
    (svc.monitor_observe c).2.last_content = some c ∧
    ((svc.monitor_observe c).2.should_ignore_change c).1 = true := by
  unfold ClipboardService.monitor_observe at h ⊢
  cases hc : (c == "") with
  | true => simp [hc] at h
  | false =>
    simp only [hc] at h ⊢
    cases hi : (svc.should_ignore_change c).1 with
    | true => simp [hi] at h
    | false =>
      obtain ⟨hst, hecho, hsz, hbase⟩ := should_ignore_change_false svc c hi
      simp only [hi, hst, Bool.false_eq_true, if_false, ite_false] at h ⊢
      constructor
      · simp
      · unfold ClipboardService.should_ignore_change
        simp [hecho, hsz]

/-- C5 witness at a concrete gate state and content. -/
theorem unchanged_content_suppressed_witness :
    (ClipboardService.monitor_observe ⟨100, none, none⟩ "hello").2.last_content = some "hello" ∧
    ((ClipboardService.monitor_observe ⟨100, none, none⟩ "hello").2.should_ignore_change
        "hello").1 = true :=
  unchanged_content_suppressed ⟨100, none, none⟩ "hello" (by decide)

/-- C6: oversized content is ignored in every gate state, and ignored again
on an immediately repeated call (the size rejection is persistent). -/
theorem size_gate_persistent (svc : ClipboardService) (c : String)
    (h : svc.max_size_bytes < c.utf8ByteSize) :
    (svc.should_ignore_change c).1 = true ∧
    ((svc.should_ignore_change c).2.should_ignore_change c).1 = true := by
  refine ⟨should_ignore_change_true_of_size svc c h,
    should_ignore_change_true_of_size _ c ?_⟩
  rw [should_ignore_change_max_size]
  exact h

/-- C6 witness at a concrete gate state and content. -/
theorem size_gate_persistent_witness :
    ((⟨1, none, none⟩ : ClipboardService).should_ignore_change "ab").1 = true ∧
    (((⟨1, none, none⟩ : ClipboardService).should_ignore_change "ab").2.should_ignore_change
        "ab").1 = true :=
  size_gate_persistent ⟨1, none, none⟩ "ab" (by decide)

/-- C9: send_clipboard writes nothing when not authenticated, writes nothing
when the content exceeds the maximum message size, and otherwise (with the
transport handle present, as it is whenever the session is authenticated)
writes exactly one clipboard_text frame carrying the content, the given
source, the local peer id as sender, and the fresh message id. -/
theorem send_clipboard_frames (st : WebSocketService) (content : String)
    (source : ClipboardSyncMode) (message_id timestamp : String) :
    (st.authenticated = false →
      st.send_clipboard content source message_id timestamp = Except.ok []) ∧
    (st.authenticated = true → Settings.MAX_MESSAGE_SIZE < content.utf8ByteSize →
      st.send_clipboard content source message_id timestamp = Except.ok []) ∧
    (st.authenticated = true → content.utf8ByteSize ≤ Settings.MAX_MESSAGE_SIZE →
      st.websocket = true →
      st.send_clipboard content source message_id timestamp =
        Except.ok [WireMessage.clipboard_text st.peer_id content message_id source timestamp]) := by
  refine ⟨fun h => ?_, fun h1 h2 => ?_, fun h1 h2 h3 => ?_⟩
  · simp [WebSocketService.send_clipboard, h]
  · simp [WebSocketService.send_clipboard, h1, h2]
  · simp [WebSocketService.send_clipboard, WebSocketService.send_message_frames,
      h1, h3, not_lt.mpr h2]

/-- C9 witness at a concrete authenticated service state. -/
theorem send_clipboard_frames_witness :
    WebSocketService.send_clipboard ⟨"peer_a", true, true⟩ "hi" ClipboardSyncMode.auto
        "mid" "ts" =
      Except.ok [WireMessage.clipboard_text "peer_a" "hi" "mid" ClipboardSyncMode.auto "ts"] :=
  (send_clipboard_frames ⟨"peer_a", true, true⟩ "hi" ClipboardSyncMode.auto "mid" "ts").2.2
    rfl (by decide) rfl

theorem jvOptEqStr_true_iff (v : Option JValue) (t : String) :
    jvOptEqStr v t = true ↔ v = some (JValue.str t) := by
  cases v with
  | none => simp [jvOptEqStr]
  | some w => cases w <;> simp [jvOptEqStr, jvEqStr]

/-- C1 (amended): decoding the encoding of a message returns the message
itself, for every constructible message whose auth_response optional string
fields are not present-but-empty. -/
theorem wire_round_trip (m : WireMessage) (h : no_empty_optionals m) :
    dict_to_message (message_to_dict m) = Except.ok m := by
  cases m with
  | auth token peer_id timestamp =>
      simp [message_to_dict, dict_to_message, jGet, jGetD, jvOptEqStr, jvEqStr, pyStrOf]
  | auth_response success session_id paired_peer error timestamp =>
      obtain ⟨h1, h2, h3⟩ := h
      cases session_id <;> cases paired_peer <;> cases error <;>
        simp_all [message_to_dict, dict_to_message, jGet, jGetD, jvOptEqStr, jvEqStr,
          pyStrOf, pyTruthy, optStrField, jOptStr]
  | text_message from_peer content message_id timestamp =>
      simp [message_to_dict, dict_to_message, jGet, jGetD, jvOptEqStr, jvEqStr, pyStrOf]
  | clipboard_text from_peer content message_id source timestamp =>
      cases source <;>
        simp [message_to_dict, dict_to_message, jGet, jGetD, jvOptEqStr, jvEqStr,
          pyStrOf, syncModeStr]
  | peer_event ptype peer_id timestamp =>
      cases ptype <;>
        simp [message_to_dict, dict_to_message, jGet, jGetD, jvOptEqStr, jvEqStr,
          pyStrOf, peerEventStr]
  | heartbeat peer_id timestamp =>
      simp [message_to_dict, dict_to_message, jGet, jGetD, jvOptEqStr, jvEqStr, pyStrOf]
  | error code message timestamp =>
      cases code <;>
        simp [message_to_dict, dict_to_message, jGet, jGetD, jvOptEqStr, jvEqStr,
          pyStrOf, errorCodeStr]

/-- C1 (counterexample): an auth_response whose session_id is present but
empty does not round trip — the decoder turns the falsy value into absent. -/
theorem wire_round_trip_cex :
    dict_to_message (message_to_dict (WireMessage.auth_response true (some "") none none "t")) ≠
      Except.ok (WireMessage.auth_response true (some "") none none "t") := by
  intro h
  simp [message_to_dict, dict_to_message, jGet, jGetD, jvOptEqStr, jvEqStr,
    pyStrOf, pyTruthy, optStrField, jOptStr] at h

/-- C1 witness at a concrete message with a non-empty optional field. -/
theorem wire_round_trip_witness :
    dict_to_message (message_to_dict (WireMessage.auth_response true (some "sid") none none "ts"))
      = Except.ok (WireMessage.auth_response true (some "sid") none none "ts") :=
  wire_round_trip (WireMessage.auth_response true (some "sid") none none "ts")
    ⟨by decide, by decide, by decide⟩

theorem known_tag_decode_ok (data : JDict) (t : String)
    (hget : jGet data "type" = some (JValue.str t))
    (hmem : t ∈ known_message_types) :
    ∃ m, dict_to_message data = Except.ok m := by
  simp only [known_message_types, List.mem_cons, List.not_mem_nil, or_false] at hmem
  rcases hmem with rfl | rfl | rfl | rfl | rfl | rfl | rfl | rfl <;>
    exact ⟨_, by simp [dict_to_message, hget, jvOptEqStr, jvEqStr]; rfl⟩

theorem unknown_tag_decode_error (data : JDict)
    (hno : ¬ ∃ t, jGet data "type" = some (JValue.str t) ∧ t ∈ known_message_types) :
    dict_to_message data = Except.error "Unknown message type" := by
  have key : ∀ t, t ∈ known_message_types → jvOptEqStr (jGet data "type") t = false := by
    intro t htm
    cases hq : jvOptEqStr (jGet data "type") t with
    | false => rfl
    | true => exact absurd ⟨t, (jvOptEqStr_true_iff _ _).mp hq, htm⟩ hno
  unfold dict_to_message
  rw [key "auth" (by decide), key "auth_response" (by decide),
    key "text_message" (by decide), key "clipboard_text" (by decide),
    key "peer_connected" (by decide), key "peer_disconnected" (by decide),
    key "heartbeat" (by decide), key "error" (by decide)]
  simp

/-- C7: decoding a payload succeeds exactly when its type tag is present and
one of the eight known variants; a missing or unknown tag yields the decode
error, never a default message. -/
theorem decode_ok_iff_known_type (data : JDict) :
    (∃ m, dict_to_message data = Except.ok m) ↔
      ∃ t, jGet data "type" = some (JValue.str t) ∧ t ∈ known_message_types := by
  constructor
  · intro hok
    by_contra hno
    obtain ⟨m, hm⟩ := hok
    rw [unknown_tag_decode_error data hno] at hm
    cases hm
  · rintro ⟨t, hget, hmem⟩
    exact known_tag_decode_ok data t hget hmem

/-- C10: with a clipboard_text tag, decoding always succeeds; an absent
source decodes to manual and any present source value other than the string
"manual" decodes to auto.  With an error tag, decoding always succeeds and
any present code value other than the three explicitly tested strings (and
hence other than the four known codes) decodes to INTERNAL_ERROR. -/
theorem decode_lenient_fields (data : JDict) :
    (jGet data "type" = some (JValue.str "clipboard_text") →
      ∃ fp c mid src ts,
        dict_to_message data = Except.ok (.clipboard_text fp c mid src ts) ∧
        (jGet data "source" = none → src = ClipboardSyncMode.manual) ∧
        (∀ v, jGet data "source" = some v → v ≠ JValue.str "manual" →
          src = ClipboardSyncMode.auto)) ∧
    (jGet data "type" = some (JValue.str "error") →
      ∃ code msg ts,
        dict_to_message data = Except.ok (.error code msg ts) ∧
        (∀ v, jGet data "code" = some v →
          v ≠ JValue.str "TOKEN_INVALID" → v ≠ JValue.str "PEER_LIMIT" →
          v ≠ JValue.str "ALREADY_CONNECTED" → code = ErrorCode.INTERNAL_ERROR)) := by
  constructor
  · intro hget
    have hred : dict_to_message data = Except.ok (.clipboard_text
        (pyStrOf (jGetD data "from" (JValue.str "")))
        (pyStrOf (jGetD data "content" (JValue.str "")))
        (pyStrOf (jGetD data "message_id" (JValue.str "")))
        (if jvEqStr (jGetD data "source" (JValue.str "manual")) "manual"
          then ClipboardSyncMode.manual else ClipboardSyncMode.auto)
        (pyStrOf (jGetD data "timestamp" (JValue.str "")))) := by
      simp [dict_to_message, hget, jvOptEqStr, jvEqStr]
    refine ⟨_, _, _, _, _, hred, ?_, ?_⟩
    · intro hsrc
      simp [jGetD, hsrc, jvEqStr]
    · intro v hv hne
      have hfalse : jvEqStr (jGetD data "source" (JValue.str "manual")) "manual" = false := by
        rw [jGetD, hv]
        cases v with
        | str s =>
            have hs : s ≠ "manual" := by
              intro hcontra
              exact hne (by rw [hcontra])
            simp [jvEqStr, hs]
        | bool b => simp [jvEqStr]
        | num n => simp [jvEqStr]
        | null => simp [jvEqStr]
      simp [hfalse]
  · intro hget
    have hred : dict_to_message data = Except.ok (.error
        (if jvEqStr (jGetD data "code" (JValue.str "INTERNAL_ERROR")) "TOKEN_INVALID"
          then ErrorCode.TOKEN_INVALID
         else if jvEqStr (jGetD data "code" (JValue.str "INTERNAL_ERROR")) "PEER_LIMIT"
          then ErrorCode.PEER_LIMIT
         else if jvEqStr (jGetD data "code" (JValue.str "INTERNAL_ERROR")) "ALREADY_CONNECTED"
          then ErrorCode.ALREADY_CONNECTED
         else ErrorCode.INTERNAL_ERROR)
        (pyStrOf (jGetD data "message" (JValue.str "")))
        (pyStrOf (jGetD data "timestamp" (JValue.str "")))) := by
      simp [dict_to_message, hget, jvOptEqStr, jvEqStr]
    refine ⟨_, _, _, hred, ?_⟩
    intro v hv h1 h2 h3
    have e1 : jvEqStr (jGetD data "code" (JValue.str "INTERNAL_ERROR")) "TOKEN_INVALID"
        = false := by
      rw [jGetD, hv]
      cases v with
      | str s =>
          have hs : s ≠ "TOKEN_INVALID" := fun hcontra => h1 (by rw [hcontra])
          simp [jvEqStr, hs]
      | bool b => simp [jvEqStr]
      | num n => simp [jvEqStr]
      | null => simp [jvEqStr]
    have e2 : jvEqStr (jGetD data "code" (JValue.str "INTERNAL_ERROR")) "PEER_LIMIT"
        = false := by
      rw [jGetD, hv]
      cases v with
      | str s =>
          have hs : s ≠ "PEER_LIMIT" := fun hcontra => h2 (by rw [hcontra])
          simp [jvEqStr, hs]
      | bool b => simp [jvEqStr]
      | num n => simp [jvEqStr]
      | null => simp [jvEqStr]
    have e3 : jvEqStr (jGetD data "code" (JValue.str "INTERNAL_ERROR")) "ALREADY_CONNECTED"
        = false := by
      rw [jGetD, hv]
      cases v with
      | str s =>
          have hs : s ≠ "ALREADY_CONNECTED" := fun hcontra => h3 (by rw [hcontra])
          simp [jvEqStr, hs]
      | bool b => simp [jvEqStr]
      | num n => simp [jvEqStr]
      | null => simp [jvEqStr]
    simp [e1, e2, e3]

/-- C10 witness: an invalid present source string decodes to auto. -/
theorem decode_lenient_fields_witness :
    ∃ fp c mid src ts,
      dict_to_message [("type", JValue.str "clipboard_text"), ("source", JValue.str "weird")] =
        Except.ok (WireMessage.clipboard_text fp c mid src ts) ∧
      src = ClipboardSyncMode.auto := by
  obtain ⟨fp, c, mid, src, ts, hok, _, hv⟩ :=
    (decode_lenient_fields
      [("type", JValue.str "clipboard_text"), ("source", JValue.str "weird")]).1 (by decide)
  exact ⟨fp, c, mid, src, ts, hok, hv (JValue.str "weird") (by decide) (by decide)⟩

theorem get_next_delay_exhausted (s : ReconnectionStrategy)
    (h : s.max_attempts ≤ s.attempt_count) :
    s.get_next_delay = (-1, s) := by
  unfold ReconnectionStrategy.get_next_delay
  rw [if_pos h]

theorem get_next_delay_active (s : ReconnectionStrategy)
    (h : s.attempt_count < s.max_attempts) :
    s.get_next_delay = (s.current_delay,
      { s with current_delay := min (s.current_delay * 2) s.max_delay,
               attempt_count := s.attempt_count + 1 }) := by
  unfold ReconnectionStrategy.get_next_delay
  rw [if_neg (Nat.not_le.mpr h)]

theorem run_delays_init_le (M i : Nat) (hi : i ≤ M) :
    run_delays (ReconnectionStrategy.init 1 30 M) i =
      ⟨1, 30, M, i, min ((2 : ℚ) ^ i) 30⟩ := by
  induction i with
  | zero =>
      have h0 : min ((2 : ℚ) ^ 0) 30 = 1 := by
        rw [pow_zero]
        exact min_eq_left (by norm_num)
      simp [run_delays, ReconnectionStrategy.init, h0]
  | succ n ih =>
      have hn : n ≤ M := Nat.le_of_succ_le hi
      have hlt : n < M := hi
      rw [run_delays, ih hn, get_next_delay_active _ (by simpa using hlt)]
      simp only []
      have hmin : min (min ((2 : ℚ) ^ n) 30 * 2) 30 = min ((2 : ℚ) ^ (n + 1)) 30 := by
        rcases le_total ((2 : ℚ) ^ n) 30 with hle | hge
        · rw [min_eq_left hle, ← pow_succ]
        · have h2 : (30 : ℚ) ≤ 2 ^ (n + 1) :=
            le_trans hge (pow_le_pow_right₀ (by norm_num) (Nat.le_succ n))
          rw [min_eq_right hge, min_eq_right (by norm_num : (30 : ℚ) ≤ 30 * 2),
            min_eq_right h2]
      rw [hmin]

theorem run_delays_init_ge (M j : Nat) :
    run_delays (ReconnectionStrategy.init 1 30 M) (M + j) =
      run_delays (ReconnectionStrategy.init 1 30 M) M := by
  induction j with
  | zero => rfl
  | succ k ih =>
      show (run_delays (ReconnectionStrategy.init 1 30 M) (M + k)).get_next_delay.2 =
        run_delays (ReconnectionStrategy.init 1 30 M) M
      rw [ih, get_next_delay_exhausted]
      rw [run_delays_init_le M M le_rfl]

/-- C2: with initialDelay 1 and maxDelay 30, the i-th nextDelay call (i below
maxAttempts) returns min(2^i, 30), i.e. the sequence 1, 2, 4, 8, 16, 30, 30,
...; from the maxAttempts-th call on, every call returns the exhausted
sentinel -1 and leaves the state unchanged. -/
theorem backoff_sequence (M : Nat) :
    (∀ i, i < M →
      nth_delay (ReconnectionStrategy.init 1 30 M) i = min ((2 : ℚ) ^ i) 30) ∧
    (∀ i, M ≤ i →
      nth_delay (ReconnectionStrategy.init 1 30 M) i = -1 ∧
      run_delays (ReconnectionStrategy.init 1 30 M) (i + 1) =
        run_delays (ReconnectionStrategy.init 1 30 M) i) := by
  constructor
  · intro i hi
    unfold nth_delay
    rw [run_delays_init_le M i (le_of_lt hi), get_next_delay_active _ (by simpa using hi)]
  · intro i hi
    obtain ⟨j, rfl⟩ : ∃ j, i = M + j := ⟨i - M, by omega⟩
    have hstate : (run_delays (ReconnectionStrategy.init 1 30 M) (M + j)).max_attempts ≤
        (run_delays (ReconnectionStrategy.init 1 30 M) (M + j)).attempt_count := by
      rw [run_delays_init_ge, run_delays_init_le M M le_rfl]
    constructor
    · unfold nth_delay
      rw [get_next_delay_exhausted _ hstate]
    · show (run_delays (ReconnectionStrategy.init 1 30 M) (M + j)).get_next_delay.2 =
        run_delays (ReconnectionStrategy.init 1 30 M) (M + j)
      rw [get_next_delay_exhausted _ hstate]

/-- C2 witness: for maxAttempts 6, the fourth call returns 8 and the seventh
reports exhaustion. -/
theorem backoff_sequence_witness :
    nth_delay (ReconnectionStrategy.init 1 30 6) 3 = 8 ∧
    nth_delay (ReconnectionStrategy.init 1 30 6) 6 = -1 := by
  constructor
  · have h := (backoff_sequence 6).1 3 (by norm_num)
    rw [h, show ((2 : ℚ) ^ 3) = 8 by norm_num, min_eq_left (by norm_num : (8 : ℚ) ≤ 30)]
  · exact ((backoff_sequence 6).2 6 (by norm_num)).1

theorem go_step_failure (f : Nat → AttemptResult) (n : Nat) (s : ReconnectionStrategy)
    (hf : f n ≠ AttemptResult.success) (hd : ¬ s.get_next_delay.1 < 0) :
    connect_with_retry_go f n s =
      ((connect_with_retry_go f (n + 1) s.get_next_delay.2).1,
       (connect_with_retry_go f (n + 1) s.get_next_delay.2).2.1,
       s.get_next_delay.1 :: (connect_with_retry_go f (n + 1) s.get_next_delay.2).2.2) := by
  conv_lhs => unfold connect_with_retry_go
  cases hfn : f n with
  | success => exact absurd hfn hf
  | failure =>
      simp only [hfn]
      rw [if_neg hd]
  | raised e =>
      simp only [hfn]
      rw [if_neg hd]

theorem go_step_exhausted (f : Nat → AttemptResult) (n : Nat) (s : ReconnectionStrategy)
    (hf : f n ≠ AttemptResult.success) (hd : s.get_next_delay.1 < 0) :
    connect_with_retry_go f n s = (false, n + 1, []) := by
  conv_lhs => unfold connect_with_retry_go
  cases hfn : f n with
  | success => exact absurd hfn hf
  | failure =>
      simp only [hfn]
      rw [if_pos hd]
  | raised e =>
      simp only [hfn]
      rw [if_pos hd]

theorem retry_g0 :
    (⟨1/100, 30, 3, 0, 1/100⟩ : ReconnectionStrategy).get_next_delay =
      (1/100, ⟨1/100, 30, 3, 1, 1/50⟩) := by
  rw [get_next_delay_active _ (by decide)]
  norm_num [min_def]

theorem retry_g1 :
    (⟨1/100, 30, 3, 1, 1/50⟩ : ReconnectionStrategy).get_next_delay =
      (1/50, ⟨1/100, 30, 3, 2, 1/25⟩) := by
  rw [get_next_delay_active _ (by decide)]
  norm_num [min_def]

theorem retry_g2 :
    (⟨1/100, 30, 3, 2, 1/25⟩ : ReconnectionStrategy).get_next_delay =
      (1/25, ⟨1/100, 30, 3, 3, 2/25⟩) := by
  rw [get_next_delay_active _ (by decide)]
  norm_num [min_def]

theorem retry_g3 :
    (⟨1/100, 30, 3, 3, 2/25⟩ : ReconnectionStrategy).get_next_delay =
      (-1, ⟨1/100, 30, 3, 3, 2/25⟩) :=
  get_next_delay_exhausted _ (by decide)

/-- C3 (amended): with maxAttempts 3 and initialDelay 0.01, if every connect
invocation fails, connect_with_retry returns failure after exactly 4
invocations of the connect function (the initial attempt plus 3 retries),
with inter-attempt delays 0.01, 0.02 and 0.04 seconds. -/
theorem retry_exhaustion (f : Nat → AttemptResult)
    (hf : ∀ n, f n ≠ AttemptResult.success) :
    (ReconnectionStrategy.init (1/100) 30 3).connect_with_retry f =
      (false, 4, [1/100, 2/100, 4/100]) := by
  unfold ReconnectionStrategy.connect_with_retry
  rw [show (ReconnectionStrategy.init (1/100) 30 3).reset =
    ⟨1/100, 30, 3, 0, 1/100⟩ from rfl]
  rw [go_step_failure f 0 _ (hf 0) (by rw [retry_g0]; norm_num)]
  simp only [retry_g0, show (0 : Nat) + 1 = 1 from rfl]
  rw [go_step_failure f 1 _ (hf 1) (by rw [retry_g1]; norm_num)]
  simp only [retry_g1, show (1 : Nat) + 1 = 2 from rfl]
  rw [go_step_failure f 2 _ (hf 2) (by rw [retry_g2]; norm_num)]
  simp only [retry_g2, show (2 : Nat) + 1 = 3 from rfl]
  rw [go_step_exhausted f 3 _ (hf 3) (by rw [retry_g3]; norm_num)]
  norm_num

/-- C3 (counterexample): with maxAttempts 3 and every attempt failing, the
connect function is invoked 4 times, not 3 (the loop sleeps the three
backoff delays and then makes one more attempt before exhausting). -/
theorem retry_exhaustion_cex :
    ((ReconnectionStrategy.init (1/100) 30 3).connect_with_retry
        (fun _ => AttemptResult.failure)).2.1 ≠ 3 ∧
    (ReconnectionStrategy.init (1/100) 30 3).connect_with_retry
        (fun _ => AttemptResult.failure) =
      (false, 4, [1/100, 2/100, 4/100]) := by
  have hrun : (ReconnectionStrategy.init (1/100) 30 3).connect_with_retry
      (fun _ => AttemptResult.failure) = (false, 4, [1/100, 2/100, 4/100]) := by
    unfold ReconnectionStrategy.connect_with_retry
    rw [show (ReconnectionStrategy.init (1/100) 30 3).reset =
      ⟨1/100, 30, 3, 0, 1/100⟩ from rfl]
    rw [go_step_failure _ 0 _ (fun h => AttemptResult.noConfusion h) (by rw [retry_g0]; norm_num)]
    simp only [retry_g0, show (0 : Nat) + 1 = 1 from rfl]
    rw [go_step_failure _ 1 _ (fun h => AttemptResult.noConfusion h) (by rw [retry_g1]; norm_num)]
    simp only [retry_g1, show (1 : Nat) + 1 = 2 from rfl]
    rw [go_step_failure _ 2 _ (fun h => AttemptResult.noConfusion h) (by rw [retry_g2]; norm_num)]
    simp only [retry_g2, show (2 : Nat) + 1 = 3 from rfl]
    rw [go_step_exhausted _ 3 _ (fun h => AttemptResult.noConfusion h) (by rw [retry_g3]; norm_num)]
    norm_num
  refine ⟨?_, hrun⟩
  rw [hrun]
  decide

/-- C3 witness: the always-failing connect function. -/
theorem retry_exhaustion_witness :
    (ReconnectionStrategy.init (1/100) 30 3).connect_with_retry
        (fun _ => AttemptResult.failure) =
      (false, 4, [1/100, 2/100, 4/100]) :=
  retry_exhaustion (fun _ => AttemptResult.failure) (fun _ h => AttemptResult.noConfusion h)

theorem go_step_success (f : Nat → AttemptResult) (n : Nat) (s : ReconnectionStrategy)
    (hf : f n = AttemptResult.success) :
    connect_with_retry_go f n s = (true, n + 1, []) := by
  conv_lhs => unfold connect_with_retry_go
  simp only [hf]

theorem go_normalize (f : Nat → AttemptResult) (n : Nat) (s : ReconnectionStrategy) :
    connect_with_retry_go f n s =
      connect_with_retry_go (fun k => normalize_attempt (f k)) n s := by
  cases hfn : f n with
  | success =>
      rw [go_step_success f n s hfn,
        go_step_success _ n s (by simp [hfn, normalize_attempt])]
  | failure =>
      have hfne : f n ≠ AttemptResult.success := by simp [hfn]
      have hfn2 : (fun k => normalize_attempt (f k)) n ≠ AttemptResult.success := by
        simp [hfn, normalize_attempt]
      by_cases hd : s.get_next_delay.1 < 0
      · rw [go_step_exhausted f n s hfne hd, go_step_exhausted _ n s hfn2 hd]
      · rw [go_step_failure f n s hfne hd, go_step_failure _ n s hfn2 hd,
          go_normalize f (n + 1) s.get_next_delay.2]
  | raised e =>
      have hfne : f n ≠ AttemptResult.success := by simp [hfn]
      have hfn2 : (fun k => normalize_attempt (f k)) n ≠ AttemptResult.success := by
        simp [hfn, normalize_attempt]
      by_cases hd : s.get_next_delay.1 < 0
      · rw [go_step_exhausted f n s hfne hd, go_step_exhausted _ n s hfn2 hd]
      · rw [go_step_failure f n s hfne hd, go_step_failure _ n s hfn2 hd,
          go_normalize f (n + 1) s.get_next_delay.2]
termination_by s.max_attempts - s.attempt_count
decreasing_by
  all_goals
    simp only [ReconnectionStrategy.get_next_delay] at hd ⊢
    by_cases hc : s.max_attempts ≤ s.attempt_count
    · rw [if_pos hc] at hd
      norm_num at hd
    · rw [if_neg hc] at hd ⊢
      simp only [Prod.snd]
      omega

/-- C8: connect_with_retry treats an attempt that raised exactly like an
attempt that returned failure — the result, the number of invocations and
the slept delays are identical to the run where every raised outcome is
replaced by a returned failure — and by type it only ever returns a result,
never propagates the exception. -/
theorem retry_swallows_exceptions (s : ReconnectionStrategy)
    (f : Nat → AttemptResult) :
    s.connect_with_retry f =
      s.connect_with_retry (fun n => normalize_attempt (f n)) :=
  go_normalize f 0 s.reset
